import Mathlib

/-!
# Verification of the decopatch disambiguation engine

Shallow embedding of `decopatch/utils_disambiguation.py`.

Modelling conventions:

* Python runtime objects are modelled by `Value`.  Python's identity test
  (`is`) is modelled by equality of `Value`s: every distinct runtime object
  of a scenario is represented by a distinct `Value`.  `Value.obj id c k`
  is a generic object with identity `id`, where `c` says whether the object
  is `callable(...)` and `k` whether `inspect.isclass(...)` holds.
  `Value.sentinel` is the class object `DecoratorUsageInfo` itself, which the
  source uses as its "uninitialized" marker (`self._first_arg_value is
  DecoratorUsageInfo`); it is a class, hence callable and a class.
  `Value.vtuple id` is a Python tuple (not callable, not a class), as
  produced by binding a var-positional parameter.
* `inspect.Signature.bind` is an external collaborator
  (`decopatch.utils_signatures` is not part of the verified source); it is
  modelled as an opaque function field `bind` of `ExposedSignature`.  Note
  that Python's `bind` does **not** apply defaults: parameters that were not
  supplied by the call are absent from `BoundArguments.arguments`.
* Python `dict` indexing `bound.arguments[name]` is fallible (it raises
  `KeyError` when the key is absent); it is modelled by `lookupArg`
  returning an `Option`, with the `none` case mapped to `PyError.keyError`.
* Exceptions are modelled with `Except PyError`; the two `raise Exception`
  statements of the module are `PyError.internalError` with the exact
  source messages.
* The interpreter call stack read by `inspect.stack()` is ambient state of
  the Python process; it is passed to the model explicitly as a
  `List FrameInfo`.  A stack frame record `calframe[i]` exposes its
  filename (`[1]`) and its `code_context` (`[4]`, possibly `None`).
* Strings are Lean `String`s; `str.lstrip()`, `str.startswith(c)` and
  `c in str` are implemented structurally over the character list so that
  concrete witnesses evaluate inside the kernel.
-/

namespace Decopatch

/-- Model of a Python runtime object, carrying its identity and the two type
predicates the source consults (`callable`, `inspect.isclass`).  A tuple
object (as produced by binding a var-positional parameter) is `vtuple id`:
its elements are never inspected by the source, only its identity and the
facts that it is neither callable nor a class. -/
inductive Value where
  | obj (id : Nat) (isCallable : Bool) (isCls : Bool)
  | sentinel
  | vtuple (id : Nat)
deriving DecidableEq, Repr

/-- Python `callable(arg)` for the modelled values (classes are callable). -/
def callable : Value → Bool
  | .obj _ c _ => c
  | .sentinel => true
  | .vtuple _ => false

/-- Python `inspect.isclass(arg)` for the modelled values. -/
def isclass : Value → Bool
  | .obj _ _ k => k
  | .sentinel => true
  | .vtuple _ => false

/-- Source `can_arg_be_a_decorator_target`: the argument has a type that can
be decorated (`callable(arg) or isclass(arg)`). -/
def can_arg_be_a_decorator_target (arg : Value) : Bool :=
  callable arg || isclass arg

/-- Output enum of first-argument disambiguators
(source `FirstArgDisambiguation`). -/
inductive FirstArgDisambiguation where
  | is_normal_arg
  | is_decorated_target
  | is_ambiguous
deriving DecidableEq, Repr

/-- Source alias `_WITH_PARENTHESIS = FirstArgDisambiguation.is_normal_arg`. -/
def WITH_PARENTHESIS : FirstArgDisambiguation := .is_normal_arg

/-- Source alias `_NO_PARENTHESIS = FirstArgDisambiguation.is_decorated_target`. -/
def NO_PARENTHESIS : FirstArgDisambiguation := .is_decorated_target

/-- The exceptions the module can raise: a `KeyError` from indexing
`bound.arguments`, or one of the two explicit `raise Exception(...)`. -/
inductive PyError where
  | keyError (name : String)
  | internalError (msg : String)
deriving DecidableEq, Repr

/-- Message of the `raise` at the keyword-capable-first-parameter invariant
check of `disambiguate_call`. -/
def internal_error_msg_argcount : String :=
  "Internal error - this should not happen, please file an issue on the github page"

/-- Message of the `raise` on the unreachable branch of the last-resort
disambiguator. -/
def internal_error_msg_unreachable : String :=
  "Internal error - this line of code is not supposed to be hit"

/-- One declared parameter of the exposed signature: its name and its default
value object (`inspect.Parameter.empty` for a parameter without default is
just another distinct object). -/
structure Param where
  name : String
  default : Value
deriving DecidableEq, Repr

/-- Result of `Signature.bind`: the ordered name-to-value mapping
`BoundArguments.arguments` (an `OrderedDict`; unsupplied parameters are
absent because `bind` does not apply defaults). -/
structure BoundArguments where
  arguments : List (String × Value)
deriving DecidableEq, Repr

/-- Python `dict` lookup `d[name]` on the bound-arguments mapping, made total
by returning an `Option` (the `none` case is a `KeyError`). -/
def lookupArg (name : String) : List (String × Value) → Option Value
  | [] => none
  | (n, v) :: rest => if n = name then some v else lookupArg name rest

/-- The exposed `inspect.Signature`: its ordered parameter list and its
`bind` operation.  `bind` itself is an external collaborator
(`inspect.Signature.bind`), modelled as an opaque function of the
positional and keyword arguments received. -/
structure ExposedSignature where
  parameters : List Param
  bind : List Value → List (String × Value) → BoundArguments

/-- Model of the `SignatureInfo` capability (external collaborator
`decopatch.utils_signatures.SignatureInfo`): normalized facts about the
exposed signature's first parameter. -/
structure SignatureInfo where
  exposed_signature : ExposedSignature
  first_arg_name : String
  first_arg_def : Param
  is_first_arg_varpositional : Bool
  is_first_arg_positional_only : Bool
  is_first_arg_mandatory : Bool

/-- Source class `DecoratorUsageInfo`: the call context, with the two lazily
memoized cells `_first_arg_value` (initialized to the class object itself,
i.e. `Value.sentinel`) and `_bound` (initialized to `None`). -/
structure DecoratorUsageInfo where
  sig_info : SignatureInfo
  args : List Value
  kwargs : List (String × Value)
  fav_cell : Value
  bound_cell : Option BoundArguments

/-- Source `DecoratorUsageInfo.__init__`: `_first_arg_value` starts as the
class object (the "uninitialized" marker) and `_bound` as `None`. -/
def DecoratorUsageInfo.make (sig_info : SignatureInfo) (args : List Value)
    (kwargs : List (String × Value)) : DecoratorUsageInfo :=
  ⟨sig_info, args, kwargs, Value.sentinel, none⟩

/-- Source property `DecoratorUsageInfo.bound`: memoized
`exposed_signature.bind(*args, **kwargs)`.  Returns the bound arguments and
the (possibly updated) context. -/
def DecoratorUsageInfo.bound (dk : DecoratorUsageInfo) :
    BoundArguments × DecoratorUsageInfo :=
  match dk.bound_cell with
  | some b => (b, dk)
  | none =>
    let b := dk.sig_info.exposed_signature.bind dk.args dk.kwargs
    (b, { dk with bound_cell := some b })

/-- Source property `DecoratorUsageInfo.first_arg_value`: if the cell still
holds the uninitialized marker (the class object), compute
`self.bound.arguments[self.sig_info.first_arg_name]` (a `KeyError` if the
first parameter is absent from the mapping) and store it; then return the
cell. -/
def DecoratorUsageInfo.first_arg_value (dk : DecoratorUsageInfo) :
    Except PyError (Value × DecoratorUsageInfo) :=
  if dk.fav_cell = Value.sentinel then
    let (b, dk1) := dk.bound
    match lookupArg dk.sig_info.first_arg_name b.arguments with
    | none => .error (.keyError dk.sig_info.first_arg_name)
    | some v => .ok (v, { dk1 with fav_cell := v })
  else
    .ok (dk.fav_cell, dk)

/-- The `for p_name, p_def in params` loop of `disambiguate_call` (first
parameter already skipped): look up each remaining parameter in
`bound.arguments` (`KeyError` if absent) and return `true` at the first one
whose bound value is not identical to its own default. -/
def check_other_args (b : BoundArguments) : List Param → Except PyError Bool
  | [] => .ok false
  | p :: rest =>
    match lookupArg p.name b.arguments with
    | none => .error (.keyError p.name)
    | some v => if v ≠ p.default then .ok true else check_other_args b rest

/-- Steps (2) and (3) of source `disambiguate_call`, entered after the
positional-count eliminations: value-based eliminations, the
other-arguments loop, and delegation to the fallback disambiguator. -/
def disambiguate_step2 (dk : DecoratorUsageInfo)
    (disambiguator : Value → FirstArgDisambiguation) :
    Except PyError (FirstArgDisambiguation × DecoratorUsageInfo) :=
  match dk.first_arg_value with
  | .error e => .error e
  | .ok (fav, dk1) =>
    if can_arg_be_a_decorator_target fav = false then
      .ok (WITH_PARENTHESIS, dk1)
    else if fav = dk1.sig_info.first_arg_def.default then
      .ok (WITH_PARENTHESIS, dk1)
    else
      let (b, dk2) := dk1.bound
      match check_other_args b (dk2.sig_info.exposed_signature.parameters.drop 1) with
      | .error e => .error e
      | .ok true => .ok (WITH_PARENTHESIS, dk2)
      | .ok false => .ok (disambiguator fav, dk2)

/-- Source `disambiguate_call`.  Step (1): positional-count eliminations.
With a var-positional or positional-only first parameter, 0 received
purely-positional arguments or at least 2 of them resolve to
`_WITH_PARENTHESIS`; exactly 1 stores it directly into the
`_first_arg_value` cell and proceeds.  With a keyword-capable first
parameter, any purely-positional argument raises the internal error;
otherwise proceed.  The returned pair carries the final state of the
(mutated) `DecoratorUsageInfo`. -/
def disambiguate_call (dk : DecoratorUsageInfo)
    (disambiguator : Value → FirstArgDisambiguation) :
    Except PyError (FirstArgDisambiguation × DecoratorUsageInfo) :=
  if dk.sig_info.is_first_arg_varpositional || dk.sig_info.is_first_arg_positional_only then
    match dk.args with
    | [] => .ok (WITH_PARENTHESIS, dk)
    | [a] => disambiguate_step2 { dk with fav_cell := a } disambiguator
    | _ :: _ :: _ => .ok (WITH_PARENTHESIS, dk)
  else
    if 0 < dk.args.length then
      .error (.internalError internal_error_msg_argcount)
    else
      disambiguate_step2 dk disambiguator

/-- Whether step (1) of `disambiguate_call` neither returns nor raises, so
that control reaches step (2). -/
def count_rule_inconclusive (dk : DecoratorUsageInfo) : Bool :=
  if dk.sig_info.is_first_arg_varpositional || dk.sig_info.is_first_arg_positional_only then
    dk.args.length = 1
  else
    dk.args.length = 0

/-- The state mutation performed by step (1) of `disambiguate_call` on the
way to step (2): with a var-positional or positional-only first parameter
and exactly one purely-positional argument, the `_first_arg_value` cell is
overwritten with that argument; otherwise the context is untouched. -/
def after_count_rule (dk : DecoratorUsageInfo) : DecoratorUsageInfo :=
  if dk.sig_info.is_first_arg_varpositional || dk.sig_info.is_first_arg_positional_only then
    match dk.args with
    | [a] => { dk with fav_cell := a }
    | _ => dk
  else dk

/-- One record of `inspect.stack()`: the fields the source reads, i.e. the
frame's filename (`calframe[i][1]`) and its `code_context`
(`calframe[i][4]`, which may be `None` or an empty list). -/
structure FrameInfo where
  filename : String
  code_context : Option (List String)

/-- Python `str.lstrip()`. -/
def str_lstrip (s : String) : String :=
  String.mk (s.data.dropWhile Char.isWhitespace)

/-- Python `str.startswith(c)` for a one-character pattern, the only form
the source uses. -/
def str_startsWithChar (s : String) (c : Char) : Bool :=
  match s.data with
  | [] => false
  | d :: _ => d = c

/-- Python `c in str` membership test for a character. -/
def str_containsChar (s : String) (c : Char) : Bool :=
  s.data.any (fun d => d = c)

/-- Rendering of the ambiguous first argument interpolated into the Jupyter
error message (Python `%s` formatting). -/
def valueRepr : Value → String
  | .obj i _ _ => "object " ++ Nat.repr i
  | .sentinel => "DecoratorUsageInfo"
  | .vtuple _ => "tuple"

/-- The message of the deliberate `raise Exception(...)` on the
Jupyter/iPython branch of `disambiguate_using_introspection`. -/
def jupyter_error_msg (decoratorName : String) (first_arg_received : Value) : String :=
  "Decorator disambiguation using stack introspection is not available in Jupyter/iPython."
    ++ " Please use the decorator in a non-ambiguous way. For example use explicit parenthesis"
    ++ " @" ++ decoratorName
    ++ "() for no-arg usage, or use 2 non-default arguments, or use explicit keywords. "
    ++ "Ambiguous argument received: " ++ valueRepr first_arg_received ++ "."

/-- The body of the `try:` block of `disambiguate_using_introspection`
(everything between `try` and `except Exception`).  `.error` is an
exception escaping the body: the `IndexError` from `calframe[5]`, the
deliberate Jupyter `raise`, the `TypeError`/`IndexError` from
`code_context[0]`.  `.ok` is one of the three verdict returns computed from
the left-stripped call-site line. -/
def introspection_try_body (decoratorName : String) (stk : List FrameInfo)
    (first_arg_received : Value) : Except String FirstArgDisambiguation :=
  match stk.get? 5 with
  | none => .error "IndexError: list index out of range"
  | some calframe5 =>
    if str_startsWithChar calframe5.filename '<' then
      .error (jupyter_error_msg decoratorName first_arg_received)
    else
      match calframe5.code_context with
      | none => .error "TypeError: NoneType object is not subscriptable"
      | some [] => .error "IndexError: list index out of range"
      | some (line :: _) =>
        let cal_line_str := str_lstrip line
        if str_startsWithChar cal_line_str '@' then
          if str_containsChar cal_line_str '(' = false then
            .ok FirstArgDisambiguation.is_decorated_target
          else
            .ok FirstArgDisambiguation.is_normal_arg
        else
          .ok FirstArgDisambiguation.is_normal_arg

/-- Source `disambiguate_using_introspection`: `None` immediately for a
class value; otherwise run the `try:` body, with `except Exception: return
None` turning every escaping exception (including the deliberate Jupyter
`raise`) into `None`.  `decoratorName` stands for
`decorator_function.__name__` (only used in the Jupyter message) and `stk`
is the ambient interpreter stack returned by `inspect.stack(context=1)`. -/
def disambiguate_using_introspection (decoratorName : String)
    (stk : List FrameInfo) (first_arg_received : Value) :
    Option FirstArgDisambiguation :=
  if isclass first_arg_received then
    none
  else
    match introspection_try_body decoratorName stk first_arg_received with
    | .ok r => some r
    | .error _ => none

/-- The static-policy part of the closure returned by
`create_single_arg_callable_or_class_disambiguator` (everything after the
introspection step): cannot-be-a-target eliminations, the user-supplied
disambiguator, the explicit `can_first_arg_be_ambiguous` override, and the
default mandatory-ness behaviour, whose optional-first branch is the
`raise` of `internal_error_msg_unreachable`. -/
def last_resort_static (is_function_decorator : Bool) (is_class_decorator : Bool)
    (can_first_arg_be_ambiguous : Option Bool)
    (callable_or_cls_firstarg_disambiguator : Option (Value → FirstArgDisambiguation))
    (signature_knowledge : SignatureInfo) (first_arg_received : Value) :
    Except PyError FirstArgDisambiguation :=
  if callable first_arg_received && !isclass first_arg_received && !is_function_decorator then
    .ok FirstArgDisambiguation.is_normal_arg
  else if isclass first_arg_received && !is_class_decorator then
    .ok FirstArgDisambiguation.is_normal_arg
  else
    match callable_or_cls_firstarg_disambiguator with
    | some d => .ok (d first_arg_received)
    | none =>
      match can_first_arg_be_ambiguous with
      | some b =>
        if b then .ok FirstArgDisambiguation.is_ambiguous
        else .ok FirstArgDisambiguation.is_decorated_target
      | none =>
        if signature_knowledge.is_first_arg_mandatory then
          .ok FirstArgDisambiguation.is_decorated_target
        else
          .error (.internalError internal_error_msg_unreachable)

/-- Source `create_single_arg_callable_or_class_disambiguator`, applied to
the first argument received (i.e. the behaviour of the closure it
returns): if stack introspection is enabled and yields a non-`None`
verdict, return it; otherwise apply the static policy.  `decoratorName`
stands for `impl_function.__name__` and `stk` for the ambient interpreter
stack. -/
def create_single_arg_callable_or_class_disambiguator
    (decoratorName : String) (stk : List FrameInfo)
    (is_function_decorator : Bool) (is_class_decorator : Bool)
    (can_first_arg_be_ambiguous : Option Bool)
    (callable_or_cls_firstarg_disambiguator : Option (Value → FirstArgDisambiguation))
    (enable_stack_introspection : Bool)
    (signature_knowledge : SignatureInfo) (first_arg_received : Value) :
    Except PyError FirstArgDisambiguation :=
  match (if enable_stack_introspection then
          disambiguate_using_introspection decoratorName stk first_arg_received
        else none) with
  | some res => .ok res
  | none =>
    last_resort_static is_function_decorator is_class_decorator
      can_first_arg_be_ambiguous callable_or_cls_firstarg_disambiguator
      signature_knowledge first_arg_received

/-! ## Concrete scenarios

Concrete objects, signatures and call contexts used to instantiate the
theorems.  Each `Value.obj` identity stands for one distinct runtime
object of the scenario; binders are instantiated with the result Python's
`Signature.bind` produces for the scenario's signature (for keyword
arguments, `bind` returns exactly the received mapping and does not add
defaults; for a var-positional parameter, `bind` packs the positionals
into a fresh tuple object). -/

/-- A plain function object (callable, not a class). -/
def funcVal : Value := .obj 1 true false

/-- A second, distinct plain function object. -/
def funcVal2 : Value := .obj 2 true false

/-- A non-callable, non-class configuration value. -/
def cVal : Value := .obj 3 false false

/-- A callable default value used as a declared first-parameter default. -/
def d0Default : Value := .obj 7 true false

/-- The `inspect.Parameter.empty` marker of a parameter with no default. -/
def emptyDefault : Value := .obj 100 false false

/-- The declared default object of parameter `b`. -/
def bDefault : Value := .obj 101 false false

/-- The declared default object of parameter `c`. -/
def cDefault : Value := .obj 102 false false

/-- A constant fallback/custom disambiguator answering `is_ambiguous`. -/
def dAmbig : Value → FirstArgDisambiguation := fun _ => .is_ambiguous

/-- A constant custom disambiguator answering `is_decorated_target`. -/
def dTarget : Value → FirstArgDisambiguation := fun _ => .is_decorated_target

/-- Signature `def f(f, b=bDefault)` with a keyword-capable mandatory first
parameter; its binder returns exactly the keyword mapping received (the
exposed wrapper passes everything by keyword and `bind` adds no
defaults). -/
def sigKw : SignatureInfo where
  exposed_signature :=
    { parameters := [⟨"f", emptyDefault⟩, ⟨"b", bDefault⟩]
      bind := fun _ kwargs => ⟨kwargs⟩ }
  first_arg_name := "f"
  first_arg_def := ⟨"f", emptyDefault⟩
  is_first_arg_varpositional := false
  is_first_arg_positional_only := false
  is_first_arg_mandatory := true

/-- Signature `def f(f, b=bDefault, c=cDefault)` with a keyword-capable
mandatory first parameter, binder as in `sigKw`. -/
def sigKw3 : SignatureInfo where
  exposed_signature :=
    { parameters := [⟨"f", emptyDefault⟩, ⟨"b", bDefault⟩, ⟨"c", cDefault⟩]
      bind := fun _ kwargs => ⟨kwargs⟩ }
  first_arg_name := "f"
  first_arg_def := ⟨"f", emptyDefault⟩
  is_first_arg_varpositional := false
  is_first_arg_positional_only := false
  is_first_arg_mandatory := true

/-- Signature `def f(*args)`: var-positional first parameter; its binder
packs the received positionals into a fresh tuple object (`vtuple 0`)
under the name `args`, as Python's `bind` does. -/
def sigVar : SignatureInfo where
  exposed_signature :=
    { parameters := [⟨"args", emptyDefault⟩]
      bind := fun _ _ => ⟨[("args", Value.vtuple 0)]⟩ }
  first_arg_name := "args"
  first_arg_def := ⟨"args", emptyDefault⟩
  is_first_arg_varpositional := true
  is_first_arg_positional_only := false
  is_first_arg_mandatory := false

/-- Signature `def f(f=d0Default, /)`: a positional-only first parameter
whose declared default is the callable object `d0Default`. -/
def sigPosOnly : SignatureInfo where
  exposed_signature :=
    { parameters := [⟨"f", d0Default⟩]
      bind := fun _ _ => ⟨[]⟩ }
  first_arg_name := "f"
  first_arg_def := ⟨"f", d0Default⟩
  is_first_arg_varpositional := false
  is_first_arg_positional_only := true
  is_first_arg_mandatory := false

/-- Call `f(f=funcVal)` on `sigKw`: parameter `b` is not supplied, so it is
absent from the bound mapping. -/
def dkC2 : DecoratorUsageInfo := .make sigKw [] [("f", funcVal)]

/-- Call passing one purely-positional argument to the keyword-capable
signature `sigKw` (the contract-breach situation). -/
def dkC2b : DecoratorUsageInfo := .make sigKw [funcVal] []

/-- Call passing two purely-positional arguments to the keyword-capable
signature `sigKw`. -/
def dkC3 : DecoratorUsageInfo := .make sigKw [funcVal, funcVal2] []

/-- Call passing two purely-positional arguments to the var-positional
signature `sigVar`. -/
def dkC3w : DecoratorUsageInfo := .make sigVar [funcVal, funcVal2] []

/-- Call `f(d0Default)` on `sigPosOnly`: the one positional argument is the
very object declared as the first parameter's default. -/
def dkC6 : DecoratorUsageInfo := .make sigPosOnly [d0Default] []

/-- The state `dkC6` reaches after step (1) stored the positional argument
in the `_first_arg_value` cell. -/
def dkC6a : DecoratorUsageInfo := ⟨sigPosOnly, [d0Default], [], d0Default, none⟩

/-- Call `f(f=funcVal, c=cVal)` on `sigKw3`: `c` is bound to a non-default
value while `b` is absent from the bound mapping. -/
def dkC7 : DecoratorUsageInfo := .make sigKw3 [] [("f", funcVal), ("c", cVal)]

/-- The state `dkC7` reaches after `first_arg_value` resolved `f` (bound
mapping memoized, cell holding `funcVal`). -/
def dkC7a : DecoratorUsageInfo :=
  ⟨sigKw3, [], [("f", funcVal), ("c", cVal)], funcVal,
    some ⟨[("f", funcVal), ("c", cVal)]⟩⟩

/-- Call `f(f=funcVal, b=bDefault, c=cDefault)` on `sigKw3`: every non-first
parameter is bound to exactly its default object. -/
def dkC7w : DecoratorUsageInfo :=
  .make sigKw3 [] [("f", funcVal), ("b", bDefault), ("c", cDefault)]

/-- The state `dkC7w` reaches after `first_arg_value` resolved `f`. -/
def dkC7wa : DecoratorUsageInfo :=
  ⟨sigKw3, [], [("f", funcVal), ("b", bDefault), ("c", cDefault)], funcVal,
    some ⟨[("f", funcVal), ("b", bDefault), ("c", cDefault)]⟩⟩

/-- Call `f(DecoratorUsageInfo)` on `sigVar`: the sole positional argument
is the `DecoratorUsageInfo` class object itself, i.e. the very object the
implementation uses as its uninitialized-cell marker. -/
def dkC9 : DecoratorUsageInfo := .make sigVar [Value.sentinel] []

/-- The state `dkC9` reaches after one full run of `disambiguate_call`:
the bound mapping is memoized and the cell holds the bound tuple object. -/
def dkC9run1 : DecoratorUsageInfo :=
  ⟨sigVar, [Value.sentinel], [], Value.vtuple 0,
    some ⟨[("args", Value.vtuple 0)]⟩⟩

/-- A stack frame of an interactive (Jupyter/iPython) execution context:
the filename starts with the marker character. -/
def frameRepl : FrameInfo := ⟨"<ipython-input-1>", some ["@deco"]⟩

/-- A six-frame interactive stack, deep enough for `calframe[5]`. -/
def stkRepl : List FrameInfo :=
  [frameRepl, frameRepl, frameRepl, frameRepl, frameRepl, frameRepl]

/-- A stack frame of an ordinary source file whose call-site line is a bare
decoration `@my_deco` (indented, no parenthesis). -/
def frameSrc : FrameInfo := ⟨"/home/user/app.py", some ["  @my_deco"]⟩

/-- A six-frame ordinary-source stack, deep enough for `calframe[5]`. -/
def stkSrc : List FrameInfo :=
  [frameSrc, frameSrc, frameSrc, frameSrc, frameSrc, frameSrc]

/-- The bound arguments that `DecoratorUsageInfo.bound` yields: the memoized
value if present, otherwise a fresh bind. -/
def computedBound (dk : DecoratorUsageInfo) : BoundArguments :=
  match dk.bound_cell with
  | some b => b
  | none => dk.sig_info.exposed_signature.bind dk.args dk.kwargs

/-- The context after `DecoratorUsageInfo.bound` has run: the `_bound` cell
is filled. -/
def setBound (dk : DecoratorUsageInfo) : DecoratorUsageInfo :=
  { dk with bound_cell := some (computedBound dk) }

@[simp]
theorem fav_cell_set_fav (dk : DecoratorUsageInfo) (u : Value) :
    ({ dk with fav_cell := u }).fav_cell = u := rfl

@[simp]
theorem sig_info_set_fav (dk : DecoratorUsageInfo) (u : Value) :
    ({ dk with fav_cell := u }).sig_info = dk.sig_info := rfl

@[simp]
theorem args_set_fav (dk : DecoratorUsageInfo) (u : Value) :
    ({ dk with fav_cell := u }).args = dk.args := rfl

@[simp]
theorem kwargs_set_fav (dk : DecoratorUsageInfo) (u : Value) :
    ({ dk with fav_cell := u }).kwargs = dk.kwargs := rfl

@[simp]
theorem bound_cell_set_fav (dk : DecoratorUsageInfo) (u : Value) :
    ({ dk with fav_cell := u }).bound_cell = dk.bound_cell := rfl

@[simp]
theorem fav_cell_setBound (dk : DecoratorUsageInfo) :
    (setBound dk).fav_cell = dk.fav_cell := rfl

@[simp]
theorem sig_info_setBound (dk : DecoratorUsageInfo) :
    (setBound dk).sig_info = dk.sig_info := rfl

@[simp]
theorem args_setBound (dk : DecoratorUsageInfo) :
    (setBound dk).args = dk.args := rfl

@[simp]
theorem kwargs_setBound (dk : DecoratorUsageInfo) :
    (setBound dk).kwargs = dk.kwargs := rfl

@[simp]
theorem bound_cell_setBound (dk : DecoratorUsageInfo) :
    (setBound dk).bound_cell = some (computedBound dk) := rfl

theorem set_fav_eq {dk : DecoratorUsageInfo} {u : Value} (h : dk.fav_cell = u) :
    { dk with fav_cell := u } = dk := by
  cases dk
  cases h
  rfl

theorem set_fav_self (dk : DecoratorUsageInfo) :
    { dk with fav_cell := dk.fav_cell } = dk := set_fav_eq rfl

theorem set_bound_eq {dk : DecoratorUsageInfo} {b : BoundArguments}
    (h : dk.bound_cell = some b) : { dk with bound_cell := some b } = dk := by
  cases dk
  cases h
  rfl

theorem bound_eq (dk : DecoratorUsageInfo) :
    dk.bound = (computedBound dk, setBound dk) := by
  cases hb : dk.bound_cell with
  | none => simp [DecoratorUsageInfo.bound, computedBound, setBound, hb]
  | some b =>
    simp only [DecoratorUsageInfo.bound, computedBound, setBound, hb]
    rw [set_bound_eq hb]

@[simp]
theorem computedBound_set_fav (dk : DecoratorUsageInfo) (u : Value) :
    computedBound { dk with fav_cell := u } = computedBound dk := rfl

@[simp]
theorem computedBound_setBound (dk : DecoratorUsageInfo) :
    computedBound (setBound dk) = computedBound dk := rfl

theorem setBound_setBound (dk : DecoratorUsageInfo) :
    setBound (setBound dk) = setBound dk :=
  set_bound_eq rfl

theorem setBound_set_fav (dk : DecoratorUsageInfo) (u : Value) :
    setBound { dk with fav_cell := u } = { setBound dk with fav_cell := u } := rfl

/-- Unfolding of the `first_arg_value` property when the cell is already
initialized: it is returned unchanged, with no state mutation. -/
theorem first_arg_value_of_not_sentinel {dk : DecoratorUsageInfo}
    (h : ¬ dk.fav_cell = Value.sentinel) :
    dk.first_arg_value = .ok (dk.fav_cell, dk) := by
  unfold DecoratorUsageInfo.first_arg_value
  rw [if_neg h]

/-- Unfolding of the `first_arg_value` property when the cell still holds
the uninitialized marker: the value is looked up in the (memoizing) bound
arguments. -/
theorem first_arg_value_of_sentinel {dk : DecoratorUsageInfo}
    (h : dk.fav_cell = Value.sentinel) :
    dk.first_arg_value =
      match lookupArg dk.sig_info.first_arg_name (computedBound dk).arguments with
      | none => .error (.keyError dk.sig_info.first_arg_name)
      | some v => .ok (v, { setBound dk with fav_cell := v }) := by
  unfold DecoratorUsageInfo.first_arg_value
  rw [if_pos h, bound_eq]

/-- A successful `first_arg_value` leaves the returned value in the cell of
the returned state. -/
theorem first_arg_value_fav {dk dkB : DecoratorUsageInfo} {w : Value}
    (h : dk.first_arg_value = .ok (w, dkB)) : dkB.fav_cell = w := by
  by_cases hs : dk.fav_cell = Value.sentinel
  · rw [first_arg_value_of_sentinel hs] at h
    cases hl : lookupArg dk.sig_info.first_arg_name (computedBound dk).arguments with
    | none => rw [hl] at h; exact absurd h (by simp)
    | some v =>
      rw [hl] at h
      obtain ⟨hv, hB⟩ := Prod.mk.injEq .. ▸ Except.ok.inj h
      subst hv; subst hB; rfl
  · rw [first_arg_value_of_not_sentinel hs] at h
    obtain ⟨hv, hB⟩ := Prod.mk.injEq .. ▸ Except.ok.inj h
    subst hv; subst hB; rfl

/-- A successful `first_arg_value` does not change the signature, the
received positional arguments or the received keyword arguments. -/
theorem first_arg_value_fields {dk dkB : DecoratorUsageInfo} {w : Value}
    (h : dk.first_arg_value = .ok (w, dkB)) :
    dkB.sig_info = dk.sig_info ∧ dkB.args = dk.args ∧ dkB.kwargs = dk.kwargs := by
  by_cases hs : dk.fav_cell = Value.sentinel
  · rw [first_arg_value_of_sentinel hs] at h
    cases hl : lookupArg dk.sig_info.first_arg_name (computedBound dk).arguments with
    | none => rw [hl] at h; exact absurd h (by simp)
    | some v =>
      rw [hl] at h
      obtain ⟨hv, hB⟩ := Prod.mk.injEq .. ▸ Except.ok.inj h
      subst hB; exact ⟨rfl, rfl, rfl⟩
  · rw [first_arg_value_of_not_sentinel hs] at h
    obtain ⟨hv, hB⟩ := Prod.mk.injEq .. ▸ Except.ok.inj h
    subst hB; exact ⟨rfl, rfl, rfl⟩


theorem first_arg_value_compute {dkX : DecoratorUsageInfo} {cb : BoundArguments} {w : Value}
    (h1 : dkX.bound_cell = some cb)
    (h2 : lookupArg dkX.sig_info.first_arg_name cb.arguments = some w)
    (h3 : dkX.fav_cell = Value.sentinel) :
    dkX.first_arg_value = .ok (w, { dkX with fav_cell := w }) := by
  have hcb : computedBound dkX = cb := by simp [computedBound, h1]
  have hSB : setBound dkX = dkX := by
    unfold setBound; rw [hcb]; exact set_bound_eq h1
  rw [first_arg_value_of_sentinel h3, hSB, hcb, h2]

theorem first_arg_value_refix {dkA dkB : DecoratorUsageInfo} {w : Value}
    (h : dkA.first_arg_value = .ok (w, dkB)) (u : Value)
    (hu : u = dkA.fav_cell ∨ u = w) :
    DecoratorUsageInfo.first_arg_value { dkB with fav_cell := u } = .ok (w, dkB) ∧
    DecoratorUsageInfo.first_arg_value { setBound dkB with fav_cell := u } =
      .ok (w, setBound dkB) := by
  by_cases hs : dkA.fav_cell = Value.sentinel
  · rw [first_arg_value_of_sentinel hs] at h
    cases hl : lookupArg dkA.sig_info.first_arg_name (computedBound dkA).arguments with
    | none => rw [hl] at h; exact absurd h (by simp)
    | some v =>
      rw [hl] at h
      obtain ⟨hw, hB⟩ := Prod.mk.injEq .. ▸ Except.ok.inj h
      subst hB
      subst hw
      by_cases hus : u = Value.sentinel
      · exact ⟨first_arg_value_compute rfl hl hus, first_arg_value_compute rfl hl hus⟩
      · have hu2 : u = v := by
          rcases hu with h1 | h1
          · exact absurd (h1.trans hs) hus
          · exact h1
        subst hu2
        exact ⟨first_arg_value_of_not_sentinel hus, first_arg_value_of_not_sentinel hus⟩
  · rw [first_arg_value_of_not_sentinel hs] at h
    obtain ⟨hw, hB⟩ := Prod.mk.injEq .. ▸ Except.ok.inj h
    subst hB
    subst hw
    have hu2 : u = dkA.fav_cell := by rcases hu with h1 | h1 <;> exact h1
    subst hu2
    exact ⟨first_arg_value_of_not_sentinel hs, first_arg_value_of_not_sentinel hs⟩

theorem step2_refix {dkA dkB : DecoratorUsageInfo} {d : Value → FirstArgDisambiguation}
    {v : FirstArgDisambiguation} (h : disambiguate_step2 dkA d = .ok (v, dkB))
    (u : Value) (hu : u = dkA.fav_cell ∨ u = dkB.fav_cell) :
    disambiguate_step2 { dkB with fav_cell := u } d = .ok (v, dkB) := by
  unfold disambiguate_step2 at h
  cases hf : dkA.first_arg_value with
  | error e => rw [hf] at h; exact absurd h (by simp)
  | ok p =>
    obtain ⟨w, dk1⟩ := p
    have hfv : dk1.fav_cell = w := first_arg_value_fav hf
    rw [hf] at h
    dsimp only at h
    by_cases ht1 : can_arg_be_a_decorator_target w = false
    · rw [if_pos ht1] at h
      obtain ⟨hv, hB⟩ := Prod.mk.injEq .. ▸ Except.ok.inj h
      subst hB
      subst hv
      rw [hfv] at hu
      obtain ⟨hr1, _⟩ := first_arg_value_refix hf u hu
      unfold disambiguate_step2
      rw [hr1]
      dsimp only
      rw [if_pos ht1]
    · rw [if_neg ht1] at h
      by_cases ht2 : w = dk1.sig_info.first_arg_def.default
      · rw [if_pos ht2] at h
        obtain ⟨hv, hB⟩ := Prod.mk.injEq .. ▸ Except.ok.inj h
        subst hB
        subst hv
        rw [hfv] at hu
        obtain ⟨hr1, _⟩ := first_arg_value_refix hf u hu
        unfold disambiguate_step2
        rw [hr1]
        dsimp only
        rw [if_neg ht1, if_pos ht2]
      · rw [if_neg ht2, bound_eq] at h
        dsimp only at h
        cases hco : check_other_args (computedBound dk1)
            (List.drop 1 (setBound dk1).sig_info.exposed_signature.parameters) with
        | error e => rw [hco] at h; exact absurd h (by simp)
        | ok t =>
          rw [hco] at h
          cases t with
          | true =>
            dsimp only at h
            obtain ⟨hv, hB⟩ := Prod.mk.injEq .. ▸ Except.ok.inj h
            subst hB
            subst hv
            rw [fav_cell_setBound, hfv] at hu
            obtain ⟨_, hr2⟩ := first_arg_value_refix hf u hu
            unfold disambiguate_step2
            rw [hr2]
            dsimp only
            rw [if_neg ht1,
              if_neg (show ¬ w = (setBound dk1).sig_info.first_arg_def.default from ht2),
              bound_eq]
            dsimp only
            rw [computedBound_setBound, setBound_setBound, hco]
          | false =>
            dsimp only at h
            obtain ⟨hv, hB⟩ := Prod.mk.injEq .. ▸ Except.ok.inj h
            subst hB
            subst hv
            rw [fav_cell_setBound, hfv] at hu
            obtain ⟨_, hr2⟩ := first_arg_value_refix hf u hu
            unfold disambiguate_step2
            rw [hr2]
            dsimp only
            rw [if_neg ht1,
              if_neg (show ¬ w = (setBound dk1).sig_info.first_arg_def.default from ht2),
              bound_eq]
            dsimp only
            rw [computedBound_setBound, setBound_setBound, hco]

theorem step2_fields {dkA dkB : DecoratorUsageInfo} {d : Value → FirstArgDisambiguation}
    {v : FirstArgDisambiguation} (h : disambiguate_step2 dkA d = .ok (v, dkB)) :
    dkB.sig_info = dkA.sig_info ∧ dkB.args = dkA.args := by
  unfold disambiguate_step2 at h
  cases hf : dkA.first_arg_value with
  | error e => rw [hf] at h; exact absurd h (by simp)
  | ok p =>
    obtain ⟨w, dk1⟩ := p
    obtain ⟨hsig, hargs, _⟩ := first_arg_value_fields hf
    rw [hf] at h
    dsimp only at h
    by_cases ht1 : can_arg_be_a_decorator_target w = false
    · rw [if_pos ht1] at h
      obtain ⟨hv, hB⟩ := Prod.mk.injEq .. ▸ Except.ok.inj h
      subst hB
      exact ⟨hsig, hargs⟩
    · rw [if_neg ht1] at h
      by_cases ht2 : w = dk1.sig_info.first_arg_def.default
      · rw [if_pos ht2] at h
        obtain ⟨hv, hB⟩ := Prod.mk.injEq .. ▸ Except.ok.inj h
        subst hB
        exact ⟨hsig, hargs⟩
      · rw [if_neg ht2, bound_eq] at h
        dsimp only at h
        cases hco : check_other_args (computedBound dk1)
            (List.drop 1 (setBound dk1).sig_info.exposed_signature.parameters) with
        | error e => rw [hco] at h; exact absurd h (by simp)
        | ok t =>
          rw [hco] at h
          cases t with
          | true =>
            dsimp only at h
            obtain ⟨hv, hB⟩ := Prod.mk.injEq .. ▸ Except.ok.inj h
            subst hB
            exact ⟨hsig, hargs⟩
          | false =>
            dsimp only at h
            obtain ⟨hv, hB⟩ := Prod.mk.injEq .. ▸ Except.ok.inj h
            subst hB
            exact ⟨hsig, hargs⟩

theorem disambiguate_call_run_twice {dk dk1 : DecoratorUsageInfo}
    {d : Value → FirstArgDisambiguation} {v : FirstArgDisambiguation}
    (h : disambiguate_call dk d = .ok (v, dk1)) :
    disambiguate_call dk1 d = .ok (v, dk1) := by
  unfold disambiguate_call at h ⊢
  by_cases hg : (dk.sig_info.is_first_arg_varpositional
      || dk.sig_info.is_first_arg_positional_only) = true
  · rw [if_pos hg] at h
    cases ha : dk.args with
    | nil =>
      rw [ha] at h
      dsimp only at h
      obtain ⟨hv, hB⟩ := Prod.mk.injEq .. ▸ Except.ok.inj h
      subst hB
      subst hv
      rw [if_pos hg, ha]
    | cons a t =>
      cases t with
      | nil =>
        rw [ha] at h
        dsimp only at h
        obtain ⟨hsig, hargs⟩ := step2_fields h
        rw [if_pos (show (dk1.sig_info.is_first_arg_varpositional
          || dk1.sig_info.is_first_arg_positional_only) = true from hsig ▸ hg)]
        have hargs1 : dk1.args = [a] := hargs
        rw [hargs1]
        dsimp only
        have hfix := step2_refix h a (Or.inl rfl)
        rw [hargs1] at hfix
        exact hfix
      | cons b t2 =>
        rw [ha] at h
        dsimp only at h
        obtain ⟨hv, hB⟩ := Prod.mk.injEq .. ▸ Except.ok.inj h
        subst hB
        subst hv
        rw [if_pos hg, ha]
  · rw [if_neg hg] at h
    by_cases hlen : 0 < dk.args.length
    · rw [if_pos hlen] at h
      exact absurd h (by simp)
    · rw [if_neg hlen] at h
      obtain ⟨hsig, hargs⟩ := step2_fields h
      rw [if_neg (show ¬ (dk1.sig_info.is_first_arg_varpositional
        || dk1.sig_info.is_first_arg_positional_only) = true from hsig ▸ hg)]
      rw [if_neg (show ¬ 0 < dk1.args.length from hargs ▸ hlen)]
      have hfix := step2_refix h dk1.fav_cell (Or.inr rfl)
      rw [set_fav_eq rfl] at hfix
      exact hfix


theorem disambiguate_call_of_count_inconclusive {dk : DecoratorUsageInfo}
    (h : count_rule_inconclusive dk = true) (d : Value → FirstArgDisambiguation) :
    disambiguate_call dk d = disambiguate_step2 (after_count_rule dk) d := by
  unfold count_rule_inconclusive at h
  unfold disambiguate_call after_count_rule
  by_cases hg : (dk.sig_info.is_first_arg_varpositional
      || dk.sig_info.is_first_arg_positional_only) = true
  · rw [if_pos hg] at h ⊢
    rw [if_pos hg]
    have hlen : dk.args.length = 1 := of_decide_eq_true h
    obtain ⟨a, ha⟩ := List.length_eq_one.mp hlen
    rw [ha]
  · rw [if_neg hg] at h ⊢
    rw [if_neg hg]
    have hlen : dk.args.length = 0 := of_decide_eq_true h
    rw [if_neg (show ¬ 0 < dk.args.length by rw [hlen]; exact lt_irrefl 0)]

theorem first_arg_value_classify (dk : DecoratorUsageInfo) :
    (∃ w dkB, dk.first_arg_value = .ok (w, dkB)) ∨
      dk.first_arg_value = .error (.keyError dk.sig_info.first_arg_name) := by
  by_cases hs : dk.fav_cell = Value.sentinel
  · rw [first_arg_value_of_sentinel hs]
    cases hl : lookupArg dk.sig_info.first_arg_name (computedBound dk).arguments with
    | none => exact Or.inr rfl
    | some v => exact Or.inl ⟨v, _, rfl⟩
  · exact Or.inl ⟨dk.fav_cell, dk, first_arg_value_of_not_sentinel hs⟩

theorem check_other_args_classify (b : BoundArguments) (ps : List Param) :
    (∃ t, check_other_args b ps = .ok t) ∨
      (∃ n, check_other_args b ps = .error (.keyError n)) := by
  induction ps with
  | nil => exact Or.inl ⟨false, rfl⟩
  | cons p rest ih =>
    unfold check_other_args
    cases hl : lookupArg p.name b.arguments with
    | none => exact Or.inr ⟨p.name, rfl⟩
    | some v =>
      dsimp only
      by_cases hd : v ≠ p.default
      · exact Or.inl ⟨true, by rw [if_pos hd]⟩
      · rw [if_neg hd]
        exact ih

theorem step2_classify (dk : DecoratorUsageInfo) (d : Value → FirstArgDisambiguation) :
    (∃ v dkB, disambiguate_step2 dk d = .ok (v, dkB)) ∨
      (∃ n, disambiguate_step2 dk d = .error (.keyError n)) := by
  unfold disambiguate_step2
  rcases first_arg_value_classify dk with ⟨w, dkB, hf⟩ | hf
  · rw [hf]
    dsimp only
    by_cases ht1 : can_arg_be_a_decorator_target w = false
    · rw [if_pos ht1]
      exact Or.inl ⟨_, _, rfl⟩
    · rw [if_neg ht1]
      by_cases ht2 : w = dkB.sig_info.first_arg_def.default
      · rw [if_pos ht2]
        exact Or.inl ⟨_, _, rfl⟩
      · rw [if_neg ht2, bound_eq]
        dsimp only
        rcases check_other_args_classify (computedBound dkB)
            (List.drop 1 (setBound dkB).sig_info.exposed_signature.parameters) with
          ⟨t, hco⟩ | ⟨n, hco⟩
        · rw [hco]
          cases t with
          | true => exact Or.inl ⟨_, _, rfl⟩
          | false => exact Or.inl ⟨_, _, rfl⟩
        · rw [hco]
          exact Or.inr ⟨n, rfl⟩
  · rw [hf]
    exact Or.inr ⟨dk.sig_info.first_arg_name, rfl⟩

theorem check_other_args_all_default {b : BoundArguments} {ps : List Param}
    (h : ∀ p ∈ ps, lookupArg p.name b.arguments = some p.default) :
    check_other_args b ps = .ok false := by
  induction ps with
  | nil => rfl
  | cons p rest ih =>
    unfold check_other_args
    rw [h p (List.mem_cons_self p rest)]
    dsimp only
    rw [if_neg (show ¬ p.default ≠ p.default from fun hc => hc rfl)]
    exact ih (fun q hq => h q (List.mem_cons_of_mem p hq))

theorem check_other_args_found {b : BoundArguments} {ps : List Param}
    (hall : ∀ p ∈ ps, ∃ w, lookupArg p.name b.arguments = some w)
    (hne : ∃ p ∈ ps, lookupArg p.name b.arguments ≠ some p.default) :
    check_other_args b ps = .ok true := by
  induction ps with
  | nil => obtain ⟨p, hp, _⟩ := hne; exact absurd hp (List.not_mem_nil p)
  | cons p rest ih =>
    unfold check_other_args
    obtain ⟨w, hw⟩ := hall p (List.mem_cons_self p rest)
    rw [hw]
    dsimp only
    by_cases hd : w ≠ p.default
    · rw [if_pos hd]
    · rw [if_neg hd]
      push_neg at hd
      subst hd
      refine ih (fun q hq => hall q (List.mem_cons_of_mem p hq)) ?_
      obtain ⟨q, hq, hqd⟩ := hne
      rcases List.mem_cons.mp hq with rfl | hq2
      · exact absurd hw hqd
      · exact ⟨q, hq2, hqd⟩


theorem introspection_body_not_ambiguous (name : String) (stk : List FrameInfo)
    (v : Value) :
    introspection_try_body name stk v ≠ .ok FirstArgDisambiguation.is_ambiguous := by
  unfold introspection_try_body
  cases stk.get? 5 with
  | none => simp
  | some frame =>
    dsimp only
    by_cases hf : str_startsWithChar frame.filename '<' = true
    · rw [if_pos hf]; simp
    · rw [if_neg hf]
      cases frame.code_context with
      | none => simp
      | some ls =>
        cases ls with
        | nil => simp
        | cons line rest =>
          dsimp only
          by_cases h1 : str_startsWithChar (str_lstrip line) '@' = true
          · rw [if_pos h1]
            by_cases h2 : str_containsChar (str_lstrip line) '(' = false
            · rw [if_pos h2]; simp
            · rw [if_neg h2]; simp
          · rw [if_neg h1]; simp

/-- Claim C1: when stack introspection runs on a non-class value and the
call-site filename starts with the interactive-context marker, the source
deliberately raises the descriptive Jupyter error inside its `try:` body —
but the blanket `except Exception: return None` of the same function
swallows it, so the operation returns the inconclusive `None` to its
caller instead of propagating the error. -/
theorem C1_jupyter_error_swallowed (name : String) (stk : List FrameInfo)
    (frame : FrameInfo) (v : Value) (hcls : isclass v = false)
    (h5 : stk.get? 5 = some frame)
    (hfn : str_startsWithChar frame.filename '<' = true) :
    introspection_try_body name stk v = .error (jupyter_error_msg name v) ∧
    disambiguate_using_introspection name stk v = none := by
  have hbody : introspection_try_body name stk v = .error (jupyter_error_msg name v) := by
    unfold introspection_try_body
    rw [h5]
    dsimp only
    rw [if_pos hfn]
  refine ⟨hbody, ?_⟩
  unfold disambiguate_using_introspection
  rw [if_neg (show ¬ isclass v = true by rw [hcls]; exact Bool.false_ne_true), hbody]

/-- Witness for C1 at a concrete interactive stack and function value. -/
theorem C1_witness :
    introspection_try_body "deco" stkRepl funcVal =
      .error (jupyter_error_msg "deco" funcVal) ∧
    disambiguate_using_introspection "deco" stkRepl funcVal = none :=
  C1_jupyter_error_swallowed "deco" stkRepl frameRepl funcVal rfl rfl (by decide)

/-- Claim C8: when introspection successfully obtains the call-site line of
frame 5 for a non-class value (real filename, non-empty code context), the
verdict is a pure function of the left-stripped line: starting with the
decoration marker and holding no opening parenthesis gives
`is_decorated_target`; starting with the marker with a parenthesis gives
`is_normal_arg`; not starting with the marker gives `is_normal_arg`. -/
theorem C8_line_rules (name : String) (stk : List FrameInfo) (frame : FrameInfo)
    (v : Value) (line : String) (rest : List String)
    (hcls : isclass v = false) (h5 : stk.get? 5 = some frame)
    (hfn : str_startsWithChar frame.filename '<' = false)
    (hctx : frame.code_context = some (line :: rest)) :
    disambiguate_using_introspection name stk v =
      some (if str_startsWithChar (str_lstrip line) '@' then
              (if str_containsChar (str_lstrip line) '(' then
                FirstArgDisambiguation.is_normal_arg
              else FirstArgDisambiguation.is_decorated_target)
            else FirstArgDisambiguation.is_normal_arg) := by
  unfold disambiguate_using_introspection
  rw [if_neg (show ¬ isclass v = true by rw [hcls]; exact Bool.false_ne_true)]
  unfold introspection_try_body
  rw [h5]
  dsimp only
  rw [if_neg (show ¬ str_startsWithChar frame.filename '<' = true by
        rw [hfn]; exact Bool.false_ne_true),
    hctx]
  dsimp only
  by_cases h1 : str_startsWithChar (str_lstrip line) '@' = true
  · rw [if_pos h1, if_pos h1]
    by_cases h2 : str_containsChar (str_lstrip line) '(' = true
    · rw [if_neg (show ¬ str_containsChar (str_lstrip line) '(' = false by
          simp [h2]), if_pos h2]
    · rw [if_pos (show str_containsChar (str_lstrip line) '(' = false from
          Bool.not_eq_true _ ▸ h2),
        if_neg h2]
  · rw [if_neg h1, if_neg h1]

/-- Witness for C8 at a concrete source stack whose call-site line is a
bare indented decoration. -/
theorem C8_witness :
    disambiguate_using_introspection "deco" stkSrc funcVal =
      some FirstArgDisambiguation.is_decorated_target :=
  C8_line_rules "deco" stkSrc frameSrc funcVal "  @my_deco" [] rfl rfl
    (by decide) rfl

/-- Claim C10: stack introspection only ever answers `is_decorated_target`,
`is_normal_arg` or the inconclusive `None` — never `is_ambiguous` — and
consequently the last-resort disambiguator can only return `is_ambiguous`
when its static-policy part already does. -/
theorem C10_no_new_ambiguity :
    (∀ (name : String) (stk : List FrameInfo) (v : Value),
      disambiguate_using_introspection name stk v ≠
        some FirstArgDisambiguation.is_ambiguous) ∧
    (∀ (name : String) (stk : List FrameInfo) (isF isC : Bool)
      (amb : Option Bool) (cd : Option (Value → FirstArgDisambiguation))
      (e : Bool) (sig : SignatureInfo) (v : Value),
      create_single_arg_callable_or_class_disambiguator name stk isF isC amb cd
          e sig v = .ok FirstArgDisambiguation.is_ambiguous →
      last_resort_static isF isC amb cd sig v =
        .ok FirstArgDisambiguation.is_ambiguous) := by
  have hintro : ∀ (name : String) (stk : List FrameInfo) (v : Value),
      disambiguate_using_introspection name stk v ≠
        some FirstArgDisambiguation.is_ambiguous := by
    intro name stk v
    unfold disambiguate_using_introspection
    by_cases hcls : isclass v = true
    · rw [if_pos hcls]; simp
    · rw [if_neg hcls]
      cases hb : introspection_try_body name stk v with
      | error e => simp
      | ok r =>
        dsimp only
        intro hc
        exact introspection_body_not_ambiguous name stk v
          (hb.trans (congrArg Except.ok (Option.some.inj hc)))
  refine ⟨hintro, ?_⟩
  intro name stk isF isC amb cd e sig v h
  unfold create_single_arg_callable_or_class_disambiguator at h
  cases e with
  | false => exact h
  | true =>
    rw [if_pos rfl] at h
    cases hi : disambiguate_using_introspection name stk v with
    | none => rw [hi] at h; exact h
    | some res =>
      rw [hi] at h
      dsimp only at h
      exact absurd (hi.trans (congrArg some (Except.ok.inj h)))
        (hintro name stk v)

/-- Witness for C10: the forced-ambiguous override with introspection
disabled makes the full disambiguator answer `is_ambiguous`, and the
theorem transports that to its static part. -/
theorem C10_witness :
    last_resort_static true true (some true) none sigKw funcVal =
      .ok FirstArgDisambiguation.is_ambiguous :=
  C10_no_new_ambiguity.2 "deco" [] true true (some true) none false sigKw
    funcVal rfl

/-- Claim C4: in the last-resort disambiguator, when the introspection step
yields no verdict and the value is eliminated neither as a
cannot-be-a-function-target nor as a cannot-be-a-class-target, a supplied
custom disambiguator is consulted and its verdict returned unchanged; the
forced ambiguity override (configured here as `some amb`) is never
reached. -/
theorem C4_custom_disambiguator_precedence (name : String) (stk : List FrameInfo)
    (isF isC : Bool) (amb : Bool) (cd : Value → FirstArgDisambiguation)
    (e : Bool) (sig : SignatureInfo) (v : Value)
    (hIntro : (if e then disambiguate_using_introspection name stk v else none) = none)
    (h1 : (callable v && !isclass v && !isF) = false)
    (h2 : (isclass v && !isC) = false) :
    create_single_arg_callable_or_class_disambiguator name stk isF isC
      (some amb) (some cd) e sig v = .ok (cd v) := by
  unfold create_single_arg_callable_or_class_disambiguator
  rw [hIntro]
  dsimp only
  unfold last_resort_static
  rw [if_neg (show ¬ (callable v && !isclass v && !isF) = true by
        rw [h1]; exact Bool.false_ne_true),
    if_neg (show ¬ (isclass v && !isC) = true by
        rw [h2]; exact Bool.false_ne_true)]

/-- Witness for C4: custom disambiguator answering `is_decorated_target`
wins although the forced override is set to ambiguous. -/
theorem C4_witness :
    create_single_arg_callable_or_class_disambiguator "deco" [] true true
      (some true) (some dTarget) false sigKw funcVal =
      .ok FirstArgDisambiguation.is_decorated_target :=
  C4_custom_disambiguator_precedence "deco" [] true true true dTarget false
    sigKw funcVal rfl rfl rfl

/-- Claim C5: with introspection disabled or inconclusive, no elimination,
no custom disambiguator and no ambiguity override, the last-resort
disambiguator returns `is_decorated_target` when the first parameter is
mandatory and raises the internal-consistency error (the "not supposed to
be hit" branch) when it is optional. -/
theorem C5_default_policy (name : String) (stk : List FrameInfo)
    (isF isC : Bool) (e : Bool) (sig : SignatureInfo) (v : Value)
    (hIntro : (if e then disambiguate_using_introspection name stk v else none) = none)
    (h1 : (callable v && !isclass v && !isF) = false)
    (h2 : (isclass v && !isC) = false) :
    create_single_arg_callable_or_class_disambiguator name stk isF isC
      none none e sig v =
      if sig.is_first_arg_mandatory then
        .ok FirstArgDisambiguation.is_decorated_target
      else
        .error (.internalError internal_error_msg_unreachable) := by
  unfold create_single_arg_callable_or_class_disambiguator
  rw [hIntro]
  dsimp only
  unfold last_resort_static
  rw [if_neg (show ¬ (callable v && !isclass v && !isF) = true by
        rw [h1]; exact Bool.false_ne_true),
    if_neg (show ¬ (isclass v && !isC) = true by
        rw [h2]; exact Bool.false_ne_true)]

/-- Witness for C5 at the mandatory-first signature `sigKw`. -/
theorem C5_witness :
    create_single_arg_callable_or_class_disambiguator "deco" [] true true
      none none false sigKw funcVal =
      .ok FirstArgDisambiguation.is_decorated_target :=
  C5_default_policy "deco" [] true true false sigKw funcVal rfl rfl rfl


theorem after_count_rule_sig (dk : DecoratorUsageInfo) :
    (after_count_rule dk).sig_info = dk.sig_info := by
  unfold after_count_rule
  by_cases hg : (dk.sig_info.is_first_arg_varpositional
      || dk.sig_info.is_first_arg_positional_only) = true
  · rw [if_pos hg]
    cases dk.args with
    | nil => rfl
    | cons a t => cases t with | nil => rfl | cons b t2 => rfl
  · rw [if_neg hg]

/-- Claim C2 counterexample: a call context with a keyword-capable first
parameter and zero purely-positional arguments (so outside the one
situation the claim allows to raise) on which `disambiguate_call`
nevertheless raises: parameter `b` was not supplied, so indexing the bound
mapping raises a `KeyError`. -/
theorem C2_counterexample :
    dkC2.args = [] ∧
    disambiguate_call dkC2 dAmbig = .error (.keyError "b") :=
  ⟨rfl, rfl⟩

/-- Claim C2 (amended): assuming the external binder succeeds,
`disambiguate_call` raises the internal-consistency error exactly when the
first parameter is keyword-capable and purely-positional arguments were
received; in every other case it either returns a verdict or raises a
`KeyError` from indexing a declared parameter that is absent from the
bound name-to-value mapping. -/
theorem C2_raise_characterization (dk : DecoratorUsageInfo)
    (d : Value → FirstArgDisambiguation) :
    (¬ (dk.sig_info.is_first_arg_varpositional
        || dk.sig_info.is_first_arg_positional_only) = true →
      dk.args ≠ [] →
      disambiguate_call dk d = .error (.internalError internal_error_msg_argcount)) ∧
    ((dk.sig_info.is_first_arg_varpositional
        || dk.sig_info.is_first_arg_positional_only) = true ∨ dk.args = [] →
      (∃ v dkB, disambiguate_call dk d = .ok (v, dkB)) ∨
      (∃ n, disambiguate_call dk d = .error (.keyError n))) := by
  constructor
  · intro hg hne
    unfold disambiguate_call
    rw [if_neg hg, if_pos (List.length_pos.mpr hne)]
  · intro hcase
    unfold disambiguate_call
    by_cases hg : (dk.sig_info.is_first_arg_varpositional
        || dk.sig_info.is_first_arg_positional_only) = true
    · rw [if_pos hg]
      cases ha : dk.args with
      | nil => exact Or.inl ⟨_, _, rfl⟩
      | cons a t =>
        cases t with
        | nil =>
          exact step2_classify
            { sig_info := dk.sig_info, args := [a], kwargs := dk.kwargs,
              fav_cell := a, bound_cell := dk.bound_cell } d
        | cons b t2 => exact Or.inl ⟨_, _, rfl⟩
    · rw [if_neg hg]
      have hnil : dk.args = [] := by
        rcases hcase with h1 | h1
        · exact absurd h1 hg
        · exact h1
      rw [if_neg (show ¬ 0 < dk.args.length by rw [hnil]; exact lt_irrefl 0)]
      exact step2_classify dk d

/-- Witness for C2 (amended): the contract-breach input does raise the
internal-consistency error. -/
theorem C2_witness :
    disambiguate_call dkC2b dAmbig =
      .error (.internalError internal_error_msg_argcount) :=
  (C2_raise_characterization dkC2b dAmbig).1 (by decide) (by decide)

/-- Claim C3 counterexample: two purely-positional arguments with a
keyword-capable first parameter do not yield `NormalArg` — they raise the
internal-consistency error. -/
theorem C3_counterexample :
    dkC3.args.length = 2 ∧
    disambiguate_call dkC3 dAmbig =
      .error (.internalError internal_error_msg_argcount) :=
  ⟨rfl, rfl⟩

/-- Claim C3 (amended): when the first parameter is var-positional or
positional-only, any call receiving two or more purely-positional
arguments yields `NormalArg` (with the context untouched); with a
keyword-capable first parameter such a call instead raises the
internal-consistency error. -/
theorem C3_multiarg_elimination (dk : DecoratorUsageInfo)
    (d : Value → FirstArgDisambiguation)
    (hg : (dk.sig_info.is_first_arg_varpositional
      || dk.sig_info.is_first_arg_positional_only) = true)
    (h2 : 2 ≤ dk.args.length) :
    disambiguate_call dk d = .ok (WITH_PARENTHESIS, dk) := by
  unfold disambiguate_call
  rw [if_pos hg]
  cases ha : dk.args with
  | nil => exact absurd (ha ▸ h2) (by simp)
  | cons a t =>
    cases t with
    | nil => exact absurd (ha ▸ h2) (by simp)
    | cons b t2 => rfl

/-- Witness for C3 (amended) on the var-positional signature. -/
theorem C3_witness :
    disambiguate_call dkC3w dAmbig = .ok (WITH_PARENTHESIS, dkC3w) :=
  C3_multiarg_elimination dkC3w dAmbig (by decide) (by decide)

/-- Claim C6: if the positional-count rule is inconclusive and the first
argument resolves to the very object declared as the first parameter's
default (identity comparison), `disambiguate_call` returns `NormalArg`. -/
theorem C6_default_elimination (dk : DecoratorUsageInfo)
    (d : Value → FirstArgDisambiguation) (v : Value) (dkB : DecoratorUsageInfo)
    (hcount : count_rule_inconclusive dk = true)
    (hfav : (after_count_rule dk).first_arg_value = .ok (v, dkB))
    (hdef : v = dk.sig_info.first_arg_def.default) :
    disambiguate_call dk d = .ok (WITH_PARENTHESIS, dkB) := by
  rw [disambiguate_call_of_count_inconclusive hcount d]
  unfold disambiguate_step2
  rw [hfav]
  dsimp only
  by_cases ht1 : can_arg_be_a_decorator_target v = false
  · rw [if_pos ht1]
  · rw [if_neg ht1]
    have hsig : dkB.sig_info = dk.sig_info :=
      (first_arg_value_fields hfav).1.trans (after_count_rule_sig dk)
    rw [if_pos (show v = dkB.sig_info.first_arg_def.default by
      rw [hsig]; exact hdef)]

/-- Witness for C6: passing the declared (callable) default object itself
as the sole positional argument yields `NormalArg`. -/
theorem C6_witness :
    disambiguate_call dkC6 dAmbig = .ok (WITH_PARENTHESIS, dkC6a) :=
  C6_default_elimination dkC6 dAmbig d0Default dkC6a (by decide) rfl rfl

/-- Claim C7 counterexample: the first argument is a plausible target and a
later parameter (`c`) is bound to a non-default value, yet
`disambiguate_call` does not return `NormalArg`: the loop first reaches
parameter `b`, which is absent from the bound mapping, and raises a
`KeyError`. -/
theorem C7_counterexample :
    count_rule_inconclusive dkC7 = true ∧
    (after_count_rule dkC7).first_arg_value = .ok (funcVal, dkC7a) ∧
    can_arg_be_a_decorator_target funcVal = true ∧
    funcVal ≠ dkC7.sig_info.first_arg_def.default ∧
    (∃ p ∈ dkC7.sig_info.exposed_signature.parameters.drop 1,
      lookupArg p.name (computedBound dkC7a).arguments ≠ some p.default) ∧
    disambiguate_call dkC7 dAmbig = .error (.keyError "b") :=
  ⟨rfl, rfl, rfl, by decide, ⟨⟨"c", cDefault⟩, by decide, by decide⟩, rfl⟩

/-- Claim C7 (amended): reaching the value-based step with a plausible,
non-default first argument, and provided every other declared parameter is
present in the bound mapping: if any of them is bound to a non-default
value the verdict is `NormalArg` for every fallback (the fallback is not
consulted); if every one is bound to its own default, the verdict is
exactly the fallback's verdict on the first argument. -/
theorem C7_other_args_rule (dk : DecoratorUsageInfo)
    (d : Value → FirstArgDisambiguation) (v : Value) (dkB : DecoratorUsageInfo)
    (hcount : count_rule_inconclusive dk = true)
    (hfav : (after_count_rule dk).first_arg_value = .ok (v, dkB))
    (htgt : can_arg_be_a_decorator_target v = true)
    (hdef : ¬ v = dk.sig_info.first_arg_def.default)
    (hall : ∀ p ∈ dk.sig_info.exposed_signature.parameters.drop 1,
      (lookupArg p.name (computedBound dkB).arguments).isSome = true) :
    ((∃ p ∈ dk.sig_info.exposed_signature.parameters.drop 1,
        lookupArg p.name (computedBound dkB).arguments ≠ some p.default) →
      disambiguate_call dk d = .ok (WITH_PARENTHESIS, setBound dkB)) ∧
    ((∀ p ∈ dk.sig_info.exposed_signature.parameters.drop 1,
        lookupArg p.name (computedBound dkB).arguments = some p.default) →
      disambiguate_call dk d = .ok (d v, setBound dkB)) := by
  have hsig : dkB.sig_info = dk.sig_info :=
    (first_arg_value_fields hfav).1.trans (after_count_rule_sig dk)
  have hmain : disambiguate_call dk d =
      match check_other_args (computedBound dkB)
          (dk.sig_info.exposed_signature.parameters.drop 1) with
      | .error e => .error e
      | .ok true => .ok (WITH_PARENTHESIS, setBound dkB)
      | .ok false => .ok (d v, setBound dkB) := by
    rw [disambiguate_call_of_count_inconclusive hcount d]
    unfold disambiguate_step2
    rw [hfav]
    dsimp only
    rw [if_neg (show ¬ can_arg_be_a_decorator_target v = false by simp [htgt]),
      if_neg (show ¬ v = dkB.sig_info.first_arg_def.default by
        rw [hsig]; exact hdef),
      bound_eq]
    dsimp only
    rw [sig_info_setBound, hsig]
  constructor
  · intro hex
    rw [hmain,
      check_other_args_found
        (fun p hp => Option.isSome_iff_exists.mp (hall p hp)) hex]
  · intro hdefs
    rw [hmain, check_other_args_all_default hdefs]

/-- Witness for C7 (amended): with every other parameter present and bound
to its default, the fallback's verdict (here the constant `is_ambiguous`)
is returned unchanged. -/
theorem C7_witness :
    disambiguate_call dkC7w dAmbig =
      .ok (FirstArgDisambiguation.is_ambiguous, setBound dkC7wa) :=
  (C7_other_args_rule dkC7w dAmbig funcVal dkC7wa (by decide) rfl rfl
    (by decide) (by decide)).2 (by decide)

/-- Claim C9 counterexample: when the call's sole positional argument is
the `DecoratorUsageInfo` class object itself (the implementation's
uninitialized-cell marker), the memoized first-argument value is changed
by the second run: after the first run the cell holds the bound tuple
object, and the second run (which, the count rule being inconclusive,
equals step 2 on `after_count_rule` of the state) starts by overwriting
the cell back to the marker, whereupon the value is recomputed from the
bound mapping rather than read from the memo. -/
theorem C9_counterexample :
    disambiguate_call dkC9 dAmbig =
      .ok (FirstArgDisambiguation.is_normal_arg, dkC9run1) ∧
    dkC9run1.fav_cell = Value.vtuple 0 ∧
    count_rule_inconclusive dkC9run1 = true ∧
    disambiguate_call dkC9run1 dAmbig =
      disambiguate_step2 (after_count_rule dkC9run1) dAmbig ∧
    (after_count_rule dkC9run1).fav_cell = Value.sentinel ∧
    Value.sentinel ≠ Value.vtuple 0 ∧
    (after_count_rule dkC9run1).first_arg_value = .ok (Value.vtuple 0, dkC9run1) :=
  ⟨rfl, rfl, rfl,
    disambiguate_call_of_count_inconclusive
      (show count_rule_inconclusive dkC9run1 = true from rfl) dAmbig,
    rfl, by decide, rfl⟩

/-- Claim C9 (amended): running `disambiguate_call` twice with the same
fallback yields the same verdict both times and the second run returns the
exact final memoized state of the first, for every call context —
including the sentinel-valued one, where stability of the final state
holds even though the cell is transiently overwritten and recomputed. -/
theorem C9_run_twice (dk dkB : DecoratorUsageInfo)
    (d : Value → FirstArgDisambiguation) (v : FirstArgDisambiguation)
    (h : disambiguate_call dk d = .ok (v, dkB)) :
    disambiguate_call dkB d = .ok (v, dkB) :=
  disambiguate_call_run_twice h

/-- Witness for C9 (amended) at the sentinel-argument context. -/
theorem C9_witness :
    disambiguate_call dkC9run1 dAmbig =
      .ok (FirstArgDisambiguation.is_normal_arg, dkC9run1) :=
  C9_run_twice dkC9 dkC9run1 dAmbig FirstArgDisambiguation.is_normal_arg rfl

end Decopatch
